import Mathlib

/-!
Shallow embedding of the host-side control logic of the two Lighthouse 2
render cores found under src/lib:

  * src/lib/RenderCore_Optix7Filter/rendercore.cpp
  * src/lib/RenderCore_OptixPrime_PBRT/rendercore.cpp

The device-side (CUDA / OptiX) kernels are not part of src/; they are
represented by oracles giving the counter values each shading dispatch
writes.  Where the semantics of those kernels matters it is modelled from
the spec and marked as such.  Machine integers (uint / int) are modelled
as Nat / Int; none of the embedded quantities can overflow in a way the
claims depend on.
-/

namespace Lighthouse2

/-- Convergence mode passed to RenderCore::Render (Restart or Converge). -/
inductive Convergence where
  | Restart
  | Converge
deriving DecidableEq

namespace Optix7Filter

/-- Modelled from the spec: the device-side shading pipeline of the
Optix7Filter core (the CUDA kernels behind `shade`, missing from src/).
For a bounce of path length `pl` over `pathCount` submitted paths the
dispatch writes `ext pl pathCount` into the extension-ray counter (which
`InitCountersForExtend` / `InitCountersSubsequent` reset to zero before the
dispatch, per the spec: counters are "reset before each dispatch") and
appends `shadow pl pathCount` occlusion rays, adding to the shadow-ray
counter, which accumulates across bounce iterations until flushed. -/
structure Device where
  ext : Nat → Nat → Nat
  shadow : Nat → Nat → Nat

/-- Observable record of one executed bounce iteration of the Optix7Filter
wavefront loop: the path count submitted to trace/shade, the device
shadow-ray counter before the dispatch, the number of shadow rays the
dispatch appended, the two counter values read back by the host
(`counters.extensionRays`, `counters.shadowRays`), and `some k` when the
overflow flush resolved `k` pending shadow rays in this iteration. -/
structure IterRec where
  submitted : Nat
  devShadowBefore : Nat
  appended : Nat
  readExt : Nat
  readShadow : Nat
  flushed : Option Nat
deriving DecidableEq

/-- The wavefront loop of RenderCore::RenderImpl
(RenderCore_Optix7Filter/rendercore.cpp lines 810-857), one constructor
case per remaining loop iteration (`k + 1` iterations left, current path
length `pl`).  Per iteration: trace + shade (the oracle writes the
counters), read the counters back, `pathCount = counters.extensionRays`,
`if (pathCount == 0) break`, then the overflow flush
`if ((pathCount + counters.shadowRays) >= maxShadowRays) if
(counters.shadowRays > 0)` which resolves `counters.shadowRays` rays and
zeroes the device-side shadow counter — but not the host-local copy
`counters`.  The returned Nat is the value of `counters.shadowRays` in the
host-local copy after the loop, which the code then resolves once more
when positive ("connect to light sources", lines 853-857); note that after
a flush in the very last iteration this local copy is stale and nonzero. -/
def run (dev : Device) (cap : Nat) : Nat → Nat → Nat → Nat → List IterRec × Nat
  | 0, _, _, devShadow => ([], devShadow)
  | k + 1, pl, pathCount, devShadow =>
    let appended := dev.shadow pl pathCount
    let shadowRB := devShadow + appended
    let ext := dev.ext pl pathCount
    if ext = 0 then
      ([⟨pathCount, devShadow, appended, ext, shadowRB, none⟩], shadowRB)
    else if cap ≤ ext + shadowRB ∧ 0 < shadowRB then
      if k = 0 then
        ([⟨pathCount, devShadow, appended, ext, shadowRB, some shadowRB⟩], shadowRB)
      else
        let rest := run dev cap k (pl + 1) ext 0
        (⟨pathCount, devShadow, appended, ext, shadowRB, some shadowRB⟩ :: rest.1, rest.2)
    else
      if k = 0 then
        ([⟨pathCount, devShadow, appended, ext, shadowRB, none⟩], shadowRB)
      else
        let rest := run dev cap k (pl + 1) ext shadowRB
        (⟨pathCount, devShadow, appended, ext, shadowRB, none⟩ :: rest.1, rest.2)

/-- One frame of the Optix7Filter wavefront loop: `maxLen` = MAXPATHLENGTH,
`n` = scrwidth * scrheight * scrspp primary paths, shadow counter starts
at zero (`InitCountersForExtend`). -/
def renderLoop (dev : Device) (cap maxLen n : Nat) : List IterRec × Nat :=
  run dev cap maxLen 1 n 0

/-- Total number of shadow rays resolved by mid-loop overflow flushes. -/
def flushedSum (l : List IterRec) : Nat :=
  (l.map fun r => r.flushed.getD 0).sum

/-- Total number of shadow rays generated (appended) by the shading
dispatches of the executed iterations. -/
def appendedSum (l : List IterRec) : Nat :=
  (l.map fun r => r.appended).sum

/-- Total shadow rays resolved over the frame: all mid-loop flushes plus
the end-of-loop resolve of the final host-local shadow count. -/
def totalResolved (res : List IterRec × Nat) : Nat :=
  flushedSum res.1 + res.2

/-- Shadow rays flushed by the last executed iteration (zero if it did not
flush); in the Optix7Filter core these are re-resolved by the end-of-loop
resolve because the host-local `counters` copy is not cleared. -/
def lastFlushExtra (l : List IterRec) : Nat :=
  match l.getLast? with
  | some r => r.flushed.getD 0
  | none => 0

end Optix7Filter

namespace OptixPrime

/-- Modelled from the spec: the device-side kernels of the
OptixPrime_PBRT core (camera.cu / pathtracer.cu, missing from src/), with
the same counter discipline as the spec describes: the extension-ray
counter is reset before each dispatch, the shadow-ray counter accumulates
across bounce iterations. -/
structure Device where
  ext : Nat → Nat → Nat
  shadow : Nat → Nat → Nat

/-- Observable record of one executed bounce iteration of the
OptixPrime_PBRT wavefront loop.  `devExt` / `devShadowAfter` are the
values the dispatch left in the device counters; `readExt` is
`some counters.extensionRays` when the host read the counters back in this
iteration and `none` in the final iteration, which breaks before the
read-back; `flushed = some k` when the overflow flush resolved `k` rays;
`swapped` records whether the in/out extension-ray queue roles were
swapped in this iteration. -/
structure IterRec where
  submitted : Nat
  devShadowBefore : Nat
  appended : Nat
  devExt : Nat
  devShadowAfter : Nat
  readExt : Option Nat
  flushed : Option Nat
  swapped : Bool
deriving DecidableEq

/-- The wavefront loop of RenderCore::Render
(RenderCore_OptixPrime_PBRT/rendercore.cpp lines 626-681).  Per
iteration: trace + shade; `if (pathLength == MAXPATHLENGTH) break;`
(before the counter read-back, so the final iteration reads nothing,
swaps nothing and never flushes); otherwise read the counters back,
`pathCount = counters.extensionRays`, `swap(inBuffer, outBuffer)`, and
flush `if ((counters.shadowRays + pathCount) >= maxShadowRays)` — with no
positivity guard — resolving `counters.shadowRays` rays and zeroing the
shadow counter (host copy is a reference, so host and device agree).
There is no early exit on a zero path count.  The returned Nat is the
device shadow counter after the loop, read back at line 684 and resolved
once when positive. -/
def run (dev : Device) (cap : Nat) : Nat → Nat → Nat → Nat → List IterRec × Nat
  | 0, _, _, devShadow => ([], devShadow)
  | k + 1, pl, pathCount, devShadow =>
    let appended := dev.shadow pl pathCount
    let shadowAfter := devShadow + appended
    let ext := dev.ext pl pathCount
    if k = 0 then
      ([⟨pathCount, devShadow, appended, ext, shadowAfter, none, none, false⟩], shadowAfter)
    else if cap ≤ shadowAfter + ext then
      let rest := run dev cap k (pl + 1) ext 0
      (⟨pathCount, devShadow, appended, ext, shadowAfter, some ext, some shadowAfter, true⟩ :: rest.1,
        rest.2)
    else
      let rest := run dev cap k (pl + 1) ext shadowAfter
      (⟨pathCount, devShadow, appended, ext, shadowAfter, some ext, none, true⟩ :: rest.1, rest.2)

/-- One frame of the OptixPrime_PBRT wavefront loop: `maxLen` =
MAXPATHLENGTH iterations over `n` = scrwidth * scrheight * scrspp primary
paths, shadow counter starting at zero (`InitCountersForExtend`). -/
def renderLoop (dev : Device) (cap maxLen n : Nat) : List IterRec × Nat :=
  run dev cap maxLen 1 n 0

/-- Total number of shadow rays resolved by mid-loop overflow flushes. -/
def flushedSum (l : List IterRec) : Nat :=
  (l.map fun r => r.flushed.getD 0).sum

/-- Total number of shadow rays generated by the shading dispatches. -/
def appendedSum (l : List IterRec) : Nat :=
  (l.map fun r => r.appended).sum

/-- Total shadow rays resolved over the frame: mid-loop flushes plus the
end-of-loop resolve. -/
def totalResolved (res : List IterRec × Nat) : Nat :=
  flushedSum res.1 + res.2

/-- Number of ping-pong queue role swaps recorded in the trace. -/
def swapCount (l : List IterRec) : Nat :=
  l.countP fun r => r.swapped

end OptixPrime

namespace Optix7Filter

/-- Host-side state of the Optix7Filter core that RenderCore::Render and
its callees touch.  The accumulator contents and the statistics snapshot
are abstracted to Nat tokens (the code only ever clears, adds into, or
wholesale overwrites them). -/
structure RenderState where
  gpuHasSceneData : Bool
  samplesTaken : Nat
  firstConvergingFrame : Bool
  frameCycle : Nat
  scrspp : Nat
  accumulator : Nat
  coreStats : Nat
  camRNGseed : Nat
deriving DecidableEq

/-- RenderCore::Render of the Optix7Filter core (rendercore.cpp lines
737-772) together with the frame body RenderCore::RenderImpl (lines
773-873) and RenderCore::FinalizeRender (lines 897-948), modelled
synchronously; the async path runs the identical RenderImpl on the worker
thread and FinalizeRender inside WaitForRender.  `contribution` is the
radiance the frame's dispatches add into the accumulator, `newStats` the
statistics they produce, `seedStep` the effect of the frame's RandomUInt
calls on the camera RNG seed — all device work outside src/.  Returns the
new state and `some pass`, where `pass` is the `samplesTaken` value the
frame was rendered with (`params.pass`, line 794), or `none` when the
call returned early because no scene data is on the device. -/
def render (contribution newStats : Nat) (seedStep : Nat → Nat) (s : RenderState)
    (converge : Convergence) : RenderState × Option Nat :=
  -- line 739: if (!gpuHasSceneData) return;
  if s.gpuHasSceneData = false then (s, none)
  else
    -- lines 745-750: if (converge == Restart || firstConvergingFrame)
    let s1 :=
      if converge = Convergence.Restart ∨ s.firstConvergingFrame = true then
        { s with samplesTaken := 0, firstConvergingFrame := true }
      else s
    -- line 751: if (converge == Converge) firstConvergingFrame = false;
    let s2 :=
      if converge = Convergence.Converge then { s1 with firstConvergingFrame := false } else s1
    -- line 758: frameCycle = (frameCycle + 1) & 3;
    let s3 := { s2 with frameCycle := (s2.frameCycle + 1) % 4 }
    -- RenderImpl line 778: if (samplesTaken == 0) accumulator->Clear( ON_DEVICE );
    let pass := s3.samplesTaken
    let s4 := if s3.samplesTaken = 0 then { s3 with accumulator := 0 } else s3
    -- the wavefront loop and the shadow-ray resolves add the frame's radiance
    let s5 := { s4 with accumulator := s4.accumulator + contribution,
                        coreStats := newStats, camRNGseed := seedStep s4.camRNGseed }
    -- FinalizeRender line 901: samplesTaken += scrspp;
    ({ s5 with samplesTaken := s5.samplesTaken + s5.scrspp }, some pass)

/-- Host-side state touched by RenderCore::WaitForRender (lines 880-891)
and by the FinalizeRender pass it triggers. -/
structure WaitState where
  asyncRenderInProgress : Bool
  coreStats : Nat
  camRNGseed : Nat
  samplesTaken : Nat
  blueSlot : Nat
  scrspp : Nat
  renderTarget : Nat
  threadCoreStats : Nat
  threadCamRNGseed : Nat
deriving DecidableEq

/-- RenderCore::WaitForRender (lines 880-891): returns immediately when no
asynchronous render is in progress; otherwise waits on the done event,
copies coreStats and camRNGseed back from the worker thread's core state,
and runs FinalizeRender, which presents the image to the render target and
advances samplesTaken and the blue-noise slot.  The Bool reports whether
FinalizeRender ran. -/
def waitForRender (finalizedImage : Nat) (s : WaitState) : WaitState × Bool :=
  if s.asyncRenderInProgress = false then (s, false)
  else
    let s1 := { s with asyncRenderInProgress := false,
                       coreStats := s.threadCoreStats, camRNGseed := s.threadCamRNGseed }
    ({ s1 with samplesTaken := s1.samplesTaken + s1.scrspp,
               blueSlot := (s1.blueSlot + 1) % 256, renderTarget := finalizedImage }, true)

/-- Render variables of the Optix7Filter core touched by
RenderCore::Setting (lines 656-678).  The float-valued settings are
modelled as integers: Setting only compares them for equality and against
zero, so any type with decidable equality and a zero is faithful (NaN
inputs, for which the C++ inequality test always restages, are outside
this model). -/
structure RenderVars where
  geometryEpsilon : Int
  clampValue : Int
  filterClampDirect : Int
  filterClampIndirect : Int
  filterEnabled : Nat
  TAAEnabled : Nat
deriving DecidableEq

/-- Device updates staged by RenderCore::Setting (stageGeometryEpsilon /
stageClampValue). -/
inductive StageOp where
  | geometryEpsilon (v : Int)
  | clampValue (v : Int)
deriving DecidableEq

/-- RenderCore::Setting of the Optix7Filter core (lines 656-678): the
recognized names are "epsilon", "clampValue", "clampDirect",
"clampIndirect", "filter" and "TAA"; epsilon and clampValue stage a device
update only when the value changed; any other name falls through all
strcmp branches and does nothing. -/
def setting (vars : RenderVars) (name : String) (value : Int) :
    RenderVars × List StageOp :=
  if name = "epsilon" then
    if vars.geometryEpsilon ≠ value then
      ({ vars with geometryEpsilon := value }, [StageOp.geometryEpsilon value])
    else (vars, [])
  else if name = "clampValue" then
    if vars.clampValue ≠ value then
      ({ vars with clampValue := value }, [StageOp.clampValue value])
    else (vars, [])
  else if name = "clampDirect" then ({ vars with filterClampDirect := value }, [])
  else if name = "clampIndirect" then ({ vars with filterClampIndirect := value }, [])
  else if name = "filter" then
    ({ vars with filterEnabled := if value = 0 then 0 else 1 }, [])
  else if name = "TAA" then
    ({ vars with TAAEnabled := if value = 0 then 0 else 1 }, [])
  else (vars, [])

end Optix7Filter

namespace OptixPrime

/-- Host-side state of the OptixPrime_PBRT core that RenderCore::Render
touches.  `instanceCount` stands for the scene content (meshes and
instances); Render never consults it — the Prime core has no
scene-availability guard. -/
structure RenderState where
  instanceCount : Nat
  samplesTaken : Nat
  firstConvergingFrame : Bool
  scrspp : Nat
  accumulator : Nat
  coreStats : Nat
  camRNGseed : Nat
deriving DecidableEq

/-- RenderCore::Render of the OptixPrime_PBRT core (rendercore.cpp lines
599-718).  Unlike the Optix7Filter core there is no gpuHasSceneData
check: the call always rebuilds the top level, runs the wavefront loop,
presents the accumulator and advances samplesTaken.  On Restart (or a
pending first-converging-frame flag) the accumulator is cleared directly,
samplesTaken reset and the camera RNG seed reset to 0x12345678 (lines
607-613).  Returns the new state and the `samplesTaken` value the frame
was rendered with. -/
def render (contribution newStats : Nat) (seedStep : Nat → Nat) (s : RenderState)
    (converge : Convergence) : RenderState × Option Nat :=
  let s1 :=
    if converge = Convergence.Restart ∨ s.firstConvergingFrame = true then
      { s with accumulator := 0, samplesTaken := 0, firstConvergingFrame := true,
               camRNGseed := 0x12345678 }
    else s
  let s2 :=
    if converge = Convergence.Converge then { s1 with firstConvergingFrame := false } else s1
  let pass := s2.samplesTaken
  let s3 := { s2 with accumulator := s2.accumulator + contribution,
                      coreStats := newStats, camRNGseed := seedStep s2.camRNGseed }
  ({ s3 with samplesTaken := s3.samplesTaken + s3.scrspp }, some pass)

/-- Render variables of the OptixPrime_PBRT core touched by
RenderCore::Setting (lines 548-566); this core recognizes only "epsilon"
and "clampValue". -/
structure RenderVars where
  geometryEpsilon : Int
  clampValue : Int
deriving DecidableEq

/-- RenderCore::Setting of the OptixPrime_PBRT core (lines 548-566). -/
def setting (vars : RenderVars) (name : String) (value : Int) :
    RenderVars × List Optix7Filter.StageOp :=
  if name = "epsilon" then
    if vars.geometryEpsilon ≠ value then
      ({ vars with geometryEpsilon := value }, [Optix7Filter.StageOp.geometryEpsilon value])
    else (vars, [])
  else if name = "clampValue" then
    if vars.clampValue ≠ value then
      ({ vars with clampValue := value }, [Optix7Filter.StageOp.clampValue value])
    else (vars, [])
  else (vars, [])

end OptixPrime

/-- Host-side state touched by RenderCore::SetTarget.  The logic is
identical in both cores (Optix7Filter lines 307-377, OptixPrime_PBRT
lines 139-199; `maxPixels >> 4` in the former equals `maxPixels / 16` in
the latter).  `maxPixels` is the allocated pixel capacity, `currentSPP`
the sample count the buffers were allocated for; accumulator contents are
abstracted to a Nat token. -/
structure TargetState where
  scrwidth : Nat
  scrheight : Nat
  scrspp : Nat
  maxPixels : Nat
  currentSPP : Nat
  samplesTaken : Nat
  accumulator : Nat
deriving DecidableEq

/-- RenderCore::SetTarget: adopt the new screen size and sample count;
reallocate all pixel-sized device buffers when the new pixel count
exceeds the allocated capacity or the sample count changed, growing the
capacity to the new pixel count plus a 1/16 slack; finally clear the
accumulator and reset samplesTaken unconditionally.  The Bool reports
whether the buffers were reallocated. -/
def setTarget (s : TargetState) (w h spp : Nat) : TargetState × Bool :=
  let s0 := { s with scrwidth := w, scrheight := h, scrspp := spp }
  -- if (scrwidth * scrheight > maxPixels || spp != currentSPP) reallocate
  if s.maxPixels < w * h ∨ spp ≠ s.currentSPP then
    let s1 := { s0 with maxPixels := w * h + (w * h) / 16, currentSPP := spp }
    ({ s1 with accumulator := 0, samplesTaken := 0 }, true)
  else
    ({ s0 with accumulator := 0, samplesTaken := 0 }, false)

/-- One entry of the instances vector: the mesh it references and its
transform.  Both cores store further device-specific fields (OptiX
descriptor, acceleration-structure handle) that SetInstance fills from
the same arguments; they do not affect the list discipline the claims
are about.  The transform type is kept abstract. -/
structure CoreInstance (T : Type) where
  mesh : Int
  transform : T
deriving DecidableEq

/-- RenderCore::SetInstance; the list discipline is identical in both
cores (Optix7Filter lines 397-427, OptixPrime_PBRT lines 219-233).
meshIdx == -1 denotes the end of the instance stream and truncates the
vector to instanceIdx entries when it is longer.  Otherwise a new
(default-constructed) instance is appended when instanceIdx is not below
the current length, and slot instanceIdx is then assigned the given mesh
index and transform.  For instanceIdx strictly above the current length
the C++ slot assignment is an out-of-bounds write (undefined behaviour);
List.set is a no-op there, so theorems about the slot contents are stated
only for instanceIdx ≤ length. -/
def setInstance {T : Type} [Inhabited T] (instances : List (CoreInstance T))
    (instanceIdx : Nat) (meshIdx : Int) (matrix : T) : List (CoreInstance T) :=
  if meshIdx = -1 then
    if instanceIdx < instances.length then instances.take instanceIdx else instances
  else
    let instances1 :=
      if instances.length ≤ instanceIdx then
        instances ++ [{ mesh := 0, transform := default }]
      else instances
    instances1.set instanceIdx { mesh := meshIdx, transform := matrix }

/-! Concrete shading oracles and states used to evaluate the models on
small inputs (tiny 2x2 screen at 1 spp, so 4 primary paths, shadow-queue
capacity 8 = maxPixels * spp * 2 with maxPixels = 4). -/

/-- Oracle where every path survives every bounce and casts one shadow ray
per bounce (a fully lit closed scene). -/
def devF7B : Optix7Filter.Device :=
  { ext := fun _ p => p, shadow := fun _ p => p }

/-- Oracle for the Optix7Filter core where every path survives and no
shadow rays are cast. -/
def devF7Q : Optix7Filter.Device :=
  { ext := fun _ p => p, shadow := fun _ _ => 0 }

/-- Oracle for the OptixPrime core where every path survives, three shadow
rays are cast on the first bounce and four on each later bounce. -/
def devPrimeA : OptixPrime.Device :=
  { ext := fun _ p => p, shadow := fun pl _ => if pl = 1 then 3 else 4 }

/-- Oracle for the OptixPrime core where every path dies immediately and
no shadow rays are cast (all primary rays miss an empty scene). -/
def devPrimeZ : OptixPrime.Device :=
  { ext := fun _ _ => 0, shadow := fun _ _ => 0 }

/-- Optix7Filter core state with scene data present on the device. -/
def s7ready : Optix7Filter.RenderState :=
  { gpuHasSceneData := true, samplesTaken := 5, firstConvergingFrame := false,
    frameCycle := 2, scrspp := 1, accumulator := 17, coreStats := 2, camRNGseed := 5 }

/-- Optix7Filter core state before any scene data reached the device
(gpuHasSceneData is set only by FinalizeInstances). -/
def s7notReady : Optix7Filter.RenderState :=
  { gpuHasSceneData := false, samplesTaken := 5, firstConvergingFrame := false,
    frameCycle := 2, scrspp := 1, accumulator := 17, coreStats := 2, camRNGseed := 5 }

/-- OptixPrime core state with no scene data at all (no instances). -/
def sPrimeEmpty : OptixPrime.RenderState :=
  { instanceCount := 0, samplesTaken := 3, firstConvergingFrame := false,
    scrspp := 1, accumulator := 17, coreStats := 2, camRNGseed := 5 }

/-- Idle wait state: no asynchronous render in progress. -/
def waitIdle : Optix7Filter.WaitState :=
  { asyncRenderInProgress := false, coreStats := 2, camRNGseed := 5, samplesTaken := 6,
    blueSlot := 9, scrspp := 1, renderTarget := 33, threadCoreStats := 77,
    threadCamRNGseed := 88 }

/-- Concrete render variables for the Optix7Filter core. -/
def vars7c : Optix7Filter.RenderVars :=
  { geometryEpsilon := 1, clampValue := 10, filterClampDirect := 2,
    filterClampIndirect := 3, filterEnabled := 1, TAAEnabled := 1 }

/-- Concrete render variables for the OptixPrime core. -/
def varsPc : OptixPrime.RenderVars :=
  { geometryEpsilon := 1, clampValue := 10 }

/-- Concrete instance list with two instances (transforms are Nat tokens). -/
def instc : List (CoreInstance Nat) :=
  [{ mesh := 3, transform := 10 }, { mesh := 4, transform := 20 }]

/-- Concrete target state for a 100x100 single-sample render target whose
buffers were allocated by a previous SetTarget call (capacity
100 * 100 + (100 * 100) / 16 = 10625 pixels). -/
def target100 : TargetState :=
  { scrwidth := 100, scrheight := 100, scrspp := 1, maxPixels := 10625,
    currentSPP := 1, samplesTaken := 5, accumulator := 42 }

end Lighthouse2

namespace Lighthouse2

namespace Optix7Filter

theorem f7_run_break (dev : Device) (cap k pl p s : Nat) (he : dev.ext pl p = 0) :
    run dev cap (k + 1) pl p s =
    ([⟨p, s, dev.shadow pl p, dev.ext pl p, s + dev.shadow pl p, none⟩], s + dev.shadow pl p) := by
  simp [run, he]

theorem f7_run_flush_last (dev : Device) (cap pl p s : Nat) (he : dev.ext pl p ≠ 0)
    (hc : cap ≤ dev.ext pl p + (s + dev.shadow pl p) ∧ 0 < s + dev.shadow pl p) :
    run dev cap 1 pl p s =
      ([⟨p, s, dev.shadow pl p, dev.ext pl p, s + dev.shadow pl p, some (s + dev.shadow pl p)⟩],
        s + dev.shadow pl p) := by
  simp [run, he, hc]

theorem f7_run_flush (dev : Device) (cap k pl p s : Nat) (he : dev.ext pl p ≠ 0) (hk : k ≠ 0)
    (hc : cap ≤ dev.ext pl p + (s + dev.shadow pl p) ∧ 0 < s + dev.shadow pl p) :
    run dev cap (k + 1) pl p s =
      (⟨p, s, dev.shadow pl p, dev.ext pl p, s + dev.shadow pl p, some (s + dev.shadow pl p)⟩ ::
          (run dev cap k (pl + 1) (dev.ext pl p) 0).1,
        (run dev cap k (pl + 1) (dev.ext pl p) 0).2) := by
  simp [run, he, hk, hc]

theorem f7_run_nof_last (dev : Device) (cap pl p s : Nat) (he : dev.ext pl p ≠ 0)
    (hc : ¬(cap ≤ dev.ext pl p + (s + dev.shadow pl p) ∧ 0 < s + dev.shadow pl p)) :
    run dev cap 1 pl p s =
      ([⟨p, s, dev.shadow pl p, dev.ext pl p, s + dev.shadow pl p, none⟩],
        s + dev.shadow pl p) := by
  simp only [run, if_neg he, if_neg hc, if_pos rfl]
  simp

theorem f7_lastFlushExtra_singleton (r : IterRec) :
    lastFlushExtra [r] = r.flushed.getD 0 := rfl

theorem f7_lastFlushExtra_cons_cons (r a : IterRec) (l : List IterRec) :
    lastFlushExtra (r :: a :: l) = lastFlushExtra (a :: l) := by
  simp only [lastFlushExtra]
  rw [List.getLast?_cons_cons]

theorem f7_run_nof (dev : Device) (cap k pl p s : Nat) (he : dev.ext pl p ≠ 0) (hk : k ≠ 0)
    (hc : ¬(cap ≤ dev.ext pl p + (s + dev.shadow pl p) ∧ 0 < s + dev.shadow pl p)) :
    run dev cap (k + 1) pl p s =
      (⟨p, s, dev.shadow pl p, dev.ext pl p, s + dev.shadow pl p, none⟩ ::
          (run dev cap k (pl + 1) (dev.ext pl p) (s + dev.shadow pl p)).1,
        (run dev cap k (pl + 1) (dev.ext pl p) (s + dev.shadow pl p)).2) := by
  simp only [run, if_neg he, if_neg hc, if_neg hk]

theorem f7_length_le (dev : Device) (cap : Nat) :
    ∀ k pl pathCount devShadow, (run dev cap k pl pathCount devShadow).1.length ≤ k := by
  intro k
  induction k with
  | zero => intro pl p s; simp [run]
  | succ k ih =>
    intro pl p s
    by_cases he : dev.ext pl p = 0
    · rw [f7_run_break dev cap k pl p s he]; simp
    · by_cases hc : cap ≤ dev.ext pl p + (s + dev.shadow pl p) ∧ 0 < s + dev.shadow pl p
      · by_cases hk : k = 0
        · subst hk; rw [f7_run_flush_last dev cap pl p s he hc]; simp
        · rw [f7_run_flush dev cap k pl p s he hk hc]
          simpa using ih (pl + 1) (dev.ext pl p) 0
      · by_cases hk : k = 0
        · subst hk; rw [f7_run_nof_last dev cap pl p s he hc]; simp
        · rw [f7_run_nof dev cap k pl p s he hk hc]
          simpa using ih (pl + 1) (dev.ext pl p) (s + dev.shadow pl p)

theorem f7_stop_on_zero (dev : Device) (cap : Nat) :
    ∀ k pl pathCount devShadow i r,
      (run dev cap k pl pathCount devShadow).1[i]? = some r →
      ((run dev cap k pl pathCount devShadow).1[i + 1]?).isSome → r.readExt ≠ 0 := by
  intro k
  induction k with
  | zero => intro pl p s i r h _; simp [run] at h
  | succ k ih =>
    intro pl p s i r h h2
    by_cases he : dev.ext pl p = 0
    · rw [f7_run_break dev cap k pl p s he] at h h2
      cases i with
      | zero => simp at h2
      | succ i => simp at h
    · by_cases hc : cap ≤ dev.ext pl p + (s + dev.shadow pl p) ∧ 0 < s + dev.shadow pl p
      · by_cases hk : k = 0
        · subst hk; rw [f7_run_flush_last dev cap pl p s he hc] at h h2
          cases i with
          | zero => simp at h2
          | succ i => simp at h
        · rw [f7_run_flush dev cap k pl p s he hk hc] at h h2
          cases i with
          | zero =>
            simp only [List.getElem?_cons_zero, Option.some_inj] at h
            subst h; exact he
          | succ i =>
            simp only [List.getElem?_cons_succ] at h h2
            exact ih (pl + 1) (dev.ext pl p) 0 i r h h2
      · by_cases hk : k = 0
        · subst hk; rw [f7_run_nof_last dev cap pl p s he hc] at h h2
          cases i with
          | zero => simp at h2
          | succ i => simp at h
        · rw [f7_run_nof dev cap k pl p s he hk hc] at h h2
          cases i with
          | zero =>
            simp only [List.getElem?_cons_zero, Option.some_inj] at h
            subst h; exact he
          | succ i =>
            simp only [List.getElem?_cons_succ] at h h2
            exact ih (pl + 1) (dev.ext pl p) (s + dev.shadow pl p) i r h h2

theorem f7_flush_char (dev : Device) (cap : Nat) :
    ∀ k pl pathCount devShadow r, r ∈ (run dev cap k pl pathCount devShadow).1 →
      (r.flushed = some r.readShadow ∧
          r.readExt ≠ 0 ∧ cap ≤ r.readExt + r.readShadow ∧ 0 < r.readShadow) ∨
        (r.flushed = none ∧
          ¬(r.readExt ≠ 0 ∧ cap ≤ r.readExt + r.readShadow ∧ 0 < r.readShadow)) := by
  intro k
  induction k with
  | zero => intro pl p s r h; simp [run] at h
  | succ k ih =>
    intro pl p s r h
    by_cases he : dev.ext pl p = 0
    · rw [f7_run_break dev cap k pl p s he] at h
      simp only [List.mem_singleton] at h
      subst h
      exact Or.inr ⟨rfl, fun hx => hx.1 he⟩
    · by_cases hc : cap ≤ dev.ext pl p + (s + dev.shadow pl p) ∧ 0 < s + dev.shadow pl p
      · by_cases hk : k = 0
        · subst hk; rw [f7_run_flush_last dev cap pl p s he hc] at h
          simp only [List.mem_singleton] at h
          subst h
          exact Or.inl ⟨rfl, he, hc.1, hc.2⟩
        · rw [f7_run_flush dev cap k pl p s he hk hc] at h
          rcases List.mem_cons.mp h with h | h
          · subst h
            exact Or.inl ⟨rfl, he, hc.1, hc.2⟩
          · exact ih (pl + 1) (dev.ext pl p) 0 r h
      · by_cases hk : k = 0
        · subst hk; rw [f7_run_nof_last dev cap pl p s he hc] at h
          simp only [List.mem_singleton] at h
          subst h
          exact Or.inr ⟨rfl, fun hx => hc ⟨hx.2.1, hx.2.2⟩⟩
        · rw [f7_run_nof dev cap k pl p s he hk hc] at h
          rcases List.mem_cons.mp h with h | h
          · subst h
            exact Or.inr ⟨rfl, fun hx => hc ⟨hx.2.1, hx.2.2⟩⟩
          · exact ih (pl + 1) (dev.ext pl p) (s + dev.shadow pl p) r h

theorem f7_head_shadow (dev : Device) (cap : Nat) :
    ∀ k pl pathCount devShadow r,
      (run dev cap k pl pathCount devShadow).1.head? = some r →
      r.devShadowBefore = devShadow ∧ r.readShadow = devShadow + r.appended := by
  intro k pl p s r h
  cases k with
  | zero => simp [run] at h
  | succ k =>
    by_cases he : dev.ext pl p = 0
    · rw [f7_run_break dev cap k pl p s he] at h
      simp only [List.head?_cons, Option.some_inj] at h
      subst h; exact ⟨rfl, rfl⟩
    · by_cases hc : cap ≤ dev.ext pl p + (s + dev.shadow pl p) ∧ 0 < s + dev.shadow pl p
      · by_cases hk : k = 0
        · subst hk; rw [f7_run_flush_last dev cap pl p s he hc] at h
          simp only [List.head?_cons, Option.some_inj] at h
          subst h; exact ⟨rfl, rfl⟩
        · rw [f7_run_flush dev cap k pl p s he hk hc] at h
          simp only [List.head?_cons, Option.some_inj] at h
          subst h; exact ⟨rfl, rfl⟩
      · by_cases hk : k = 0
        · subst hk; rw [f7_run_nof_last dev cap pl p s he hc] at h
          simp only [List.head?_cons, Option.some_inj] at h
          subst h; exact ⟨rfl, rfl⟩
        · rw [f7_run_nof dev cap k pl p s he hk hc] at h
          simp only [List.head?_cons, Option.some_inj] at h
          subst h; exact ⟨rfl, rfl⟩

theorem f7_after_flush (dev : Device) (cap : Nat) :
    ∀ k pl pathCount devShadow i r r2,
      (run dev cap k pl pathCount devShadow).1[i]? = some r →
      (run dev cap k pl pathCount devShadow).1[i + 1]? = some r2 →
      r.flushed.isSome → r2.devShadowBefore = 0 := by
  intro k
  induction k with
  | zero => intro pl p s i r r2 h h2 hf; simp [run] at h
  | succ k ih =>
    intro pl p s i r r2 h h2 hf
    by_cases he : dev.ext pl p = 0
    · rw [f7_run_break dev cap k pl p s he] at h h2
      cases i with
      | zero => simp at h2
      | succ i => simp at h
    · by_cases hc : cap ≤ dev.ext pl p + (s + dev.shadow pl p) ∧ 0 < s + dev.shadow pl p
      · by_cases hk : k = 0
        · subst hk; rw [f7_run_flush_last dev cap pl p s he hc] at h h2
          cases i with
          | zero => simp at h2
          | succ i => simp at h
        · rw [f7_run_flush dev cap k pl p s he hk hc] at h h2
          cases i with
          | zero =>
            simp only [List.getElem?_cons_succ, List.getElem?_cons_zero] at h2
            have hh : (run dev cap k (pl + 1) (dev.ext pl p) 0).1.head? = some r2 := by
              cases heq : (run dev cap k (pl + 1) (dev.ext pl p) 0).1 with
              | nil => rw [heq] at h2; simp at h2
              | cons a l =>
                rw [heq] at h2; simp only [List.getElem?_cons_zero] at h2; simp [heq, h2]
            exact (f7_head_shadow dev cap k (pl + 1) (dev.ext pl p) 0 r2 hh).1
          | succ i =>
            simp only [List.getElem?_cons_succ] at h h2
            exact ih (pl + 1) (dev.ext pl p) 0 i r r2 h h2 hf
      · by_cases hk : k = 0
        · subst hk; rw [f7_run_nof_last dev cap pl p s he hc] at h h2
          cases i with
          | zero => simp at h2
          | succ i => simp at h
        · rw [f7_run_nof dev cap k pl p s he hk hc] at h h2
          cases i with
          | zero =>
            simp only [List.getElem?_cons_zero, Option.some_inj] at h
            subst h
            simp at hf
          | succ i =>
            simp only [List.getElem?_cons_succ] at h h2
            exact ih (pl + 1) (dev.ext pl p) (s + dev.shadow pl p) i r r2 h h2 hf

theorem f7_ne_nil (dev : Device) (cap : Nat) :
    ∀ k pl pathCount devShadow, 1 ≤ k → (run dev cap k pl pathCount devShadow).1 ≠ [] := by
  intro k pl p s hk
  cases k with
  | zero => omega
  | succ k =>
    by_cases he : dev.ext pl p = 0
    · rw [f7_run_break dev cap k pl p s he]; simp
    · by_cases hc : cap ≤ dev.ext pl p + (s + dev.shadow pl p) ∧ 0 < s + dev.shadow pl p
      · by_cases hk0 : k = 0
        · subst hk0; rw [f7_run_flush_last dev cap pl p s he hc]; simp
        · rw [f7_run_flush dev cap k pl p s he hk0 hc]; simp
      · by_cases hk0 : k = 0
        · subst hk0; rw [f7_run_nof_last dev cap pl p s he hc]; simp
        · rw [f7_run_nof dev cap k pl p s he hk0 hc]; simp

theorem f7_conservation (dev : Device) (cap : Nat) :
    ∀ k pl pathCount devShadow, 1 ≤ k →
      flushedSum (run dev cap k pl pathCount devShadow).1 +
          (run dev cap k pl pathCount devShadow).2 =
        devShadow + appendedSum (run dev cap k pl pathCount devShadow).1 +
          lastFlushExtra (run dev cap k pl pathCount devShadow).1 := by
  intro k
  induction k with
  | zero => intro pl p s h; omega
  | succ k ih =>
    intro pl p s _
    by_cases he : dev.ext pl p = 0
    · rw [f7_run_break dev cap k pl p s he]
      simp [flushedSum, appendedSum, lastFlushExtra]
    · by_cases hc : cap ≤ dev.ext pl p + (s + dev.shadow pl p) ∧ 0 < s + dev.shadow pl p
      · by_cases hk : k = 0
        · subst hk; rw [f7_run_flush_last dev cap pl p s he hc]
          simp [flushedSum, appendedSum, lastFlushExtra]
        · rw [f7_run_flush dev cap k pl p s he hk hc]
          have H := ih (pl + 1) (dev.ext pl p) 0 (Nat.one_le_iff_ne_zero.mpr hk)
          have hne := f7_ne_nil dev cap k (pl + 1) (dev.ext pl p) 0
            (Nat.one_le_iff_ne_zero.mpr hk)
          cases heq : (run dev cap k (pl + 1) (dev.ext pl p) 0).1 with
          | nil => exact absurd heq hne
          | cons a l =>
            rw [heq] at H
            simp only [flushedSum, appendedSum, List.map_cons, List.sum_cons,
              Option.getD_some, f7_lastFlushExtra_cons_cons] at H ⊢
            omega
      · by_cases hk : k = 0
        · subst hk; rw [f7_run_nof_last dev cap pl p s he hc]
          simp [flushedSum, appendedSum, lastFlushExtra]
        · rw [f7_run_nof dev cap k pl p s he hk hc]
          have H := ih (pl + 1) (dev.ext pl p) (s + dev.shadow pl p)
            (Nat.one_le_iff_ne_zero.mpr hk)
          have hne := f7_ne_nil dev cap k (pl + 1) (dev.ext pl p) (s + dev.shadow pl p)
            (Nat.one_le_iff_ne_zero.mpr hk)
          cases heq : (run dev cap k (pl + 1) (dev.ext pl p) (s + dev.shadow pl p)).1 with
          | nil => exact absurd heq hne
          | cons a l =>
            rw [heq] at H
            simp only [flushedSum, appendedSum, List.map_cons, List.sum_cons,
              Option.getD_none, f7_lastFlushExtra_cons_cons] at H ⊢
            omega

theorem f7_ext_bound (dev : Device) (cap : Nat) (hdev : ∀ pl p, dev.ext pl p ≤ p) :
    ∀ k pl pathCount devShadow n, pathCount ≤ n →
      ∀ r ∈ (run dev cap k pl pathCount devShadow).1,
        r.readExt ≤ r.submitted ∧ r.submitted ≤ n := by
  intro k
  induction k with
  | zero => intro pl p s n hp r h; simp [run] at h
  | succ k ih =>
    intro pl p s n hp r h
    by_cases he : dev.ext pl p = 0
    · rw [f7_run_break dev cap k pl p s he] at h
      simp only [List.mem_singleton] at h
      subst h
      exact ⟨hdev pl p, hp⟩
    · by_cases hc : cap ≤ dev.ext pl p + (s + dev.shadow pl p) ∧ 0 < s + dev.shadow pl p
      · by_cases hk : k = 0
        · subst hk; rw [f7_run_flush_last dev cap pl p s he hc] at h
          simp only [List.mem_singleton] at h
          subst h
          exact ⟨hdev pl p, hp⟩
        · rw [f7_run_flush dev cap k pl p s he hk hc] at h
          rcases List.mem_cons.mp h with h | h
          · subst h; exact ⟨hdev pl p, hp⟩
          · exact ih (pl + 1) (dev.ext pl p) 0 n (le_trans (hdev pl p) hp) r h
      · by_cases hk : k = 0
        · subst hk; rw [f7_run_nof_last dev cap pl p s he hc] at h
          simp only [List.mem_singleton] at h
          subst h
          exact ⟨hdev pl p, hp⟩
        · rw [f7_run_nof dev cap k pl p s he hk hc] at h
          rcases List.mem_cons.mp h with h | h
          · subst h; exact ⟨hdev pl p, hp⟩
          · exact ih (pl + 1) (dev.ext pl p) (s + dev.shadow pl p) n
              (le_trans (hdev pl p) hp) r h

end Optix7Filter

namespace OptixPrime

theorem pr_run_length (dev : Device) (cap : Nat) :
    ∀ k pl pathCount devShadow, (run dev cap k pl pathCount devShadow).1.length = k := by
  intro k
  induction k with
  | zero => intro pl p s; simp [run]
  | succ k ih =>
    intro pl p s
    by_cases hk : k = 0
    · subst hk; simp [run]
    · by_cases hc : cap ≤ s + dev.shadow pl p + dev.ext pl p
      · simp [run, hk, hc, ih]
      · simp [run, hk, hc, ih]

theorem pr_run_last (dev : Device) (cap pl p s : Nat) :
    run dev cap 1 pl p s =
      ([⟨p, s, dev.shadow pl p, dev.ext pl p, s + dev.shadow pl p, none, none, false⟩],
        s + dev.shadow pl p) := by
  simp [run]

theorem pr_run_flush (dev : Device) (cap k pl p s : Nat) (hk : k ≠ 0)
    (hc : cap ≤ s + dev.shadow pl p + dev.ext pl p) :
    run dev cap (k + 1) pl p s =
      (⟨p, s, dev.shadow pl p, dev.ext pl p, s + dev.shadow pl p, some (dev.ext pl p),
          some (s + dev.shadow pl p), true⟩ :: (run dev cap k (pl + 1) (dev.ext pl p) 0).1,
        (run dev cap k (pl + 1) (dev.ext pl p) 0).2) := by
  simp [run, hk, hc]

theorem pr_run_noflush (dev : Device) (cap k pl p s : Nat) (hk : k ≠ 0)
    (hc : ¬cap ≤ s + dev.shadow pl p + dev.ext pl p) :
    run dev cap (k + 1) pl p s =
      (⟨p, s, dev.shadow pl p, dev.ext pl p, s + dev.shadow pl p, some (dev.ext pl p),
          none, true⟩ :: (run dev cap k (pl + 1) (dev.ext pl p) (s + dev.shadow pl p)).1,
        (run dev cap k (pl + 1) (dev.ext pl p) (s + dev.shadow pl p)).2) := by
  simp [run, hk, hc]

theorem pr_record_shape (dev : Device) (cap : Nat) :
    ∀ k pl pathCount devShadow i r,
      (run dev cap k pl pathCount devShadow).1[i]? = some r →
      (if i + 1 = k then r.readExt = none ∧ r.swapped = false ∧ r.flushed = none
       else r.readExt = some r.devExt ∧ r.swapped = true) := by
  intro k
  induction k with
  | zero => intro pl p s i r h; simp [run] at h
  | succ k ih =>
    intro pl p s i r h
    by_cases hk : k = 0
    · subst hk
      rw [pr_run_last] at h
      cases i with
      | zero =>
        simp only [List.getElem?_cons_zero, Option.some_inj] at h
        subst h
        rw [if_pos rfl]
        exact ⟨rfl, rfl, rfl⟩
      | succ i => simp at h
    · by_cases hc : cap ≤ s + dev.shadow pl p + dev.ext pl p
      · rw [pr_run_flush dev cap k pl p s hk hc] at h
        cases i with
        | zero =>
          simp only [List.getElem?_cons_zero, Option.some_inj] at h
          subst h
          rw [if_neg (by omega)]
          exact ⟨rfl, rfl⟩
        | succ i =>
          simp only [List.getElem?_cons_succ] at h
          have H := ih (pl + 1) (dev.ext pl p) 0 i r h
          by_cases hik : i + 1 = k
          · rw [if_pos (by omega)]; rw [if_pos hik] at H; exact H
          · rw [if_neg (by omega)]; rw [if_neg hik] at H; exact H
      · rw [pr_run_noflush dev cap k pl p s hk hc] at h
        cases i with
        | zero =>
          simp only [List.getElem?_cons_zero, Option.some_inj] at h
          subst h
          rw [if_neg (by omega)]
          exact ⟨rfl, rfl⟩
        | succ i =>
          simp only [List.getElem?_cons_succ] at h
          have H := ih (pl + 1) (dev.ext pl p) (s + dev.shadow pl p) i r h
          by_cases hik : i + 1 = k
          · rw [if_pos (by omega)]; rw [if_pos hik] at H; exact H
          · rw [if_neg (by omega)]; rw [if_neg hik] at H; exact H

theorem pr_flush_char (dev : Device) (cap : Nat) :
    ∀ k pl pathCount devShadow r, r ∈ (run dev cap k pl pathCount devShadow).1 →
      (r.flushed = some r.devShadowAfter ∧
          ∃ e, r.readExt = some e ∧ cap ≤ r.devShadowAfter + e) ∨
        (r.flushed = none ∧ ∀ e, r.readExt = some e → r.devShadowAfter + e < cap) := by
  intro k
  induction k with
  | zero => intro pl p s r h; simp [run] at h
  | succ k ih =>
    intro pl p s r h
    by_cases hk : k = 0
    · subst hk
      rw [pr_run_last] at h
      simp only [List.mem_singleton] at h
      subst h
      exact Or.inr ⟨rfl, fun e he => by simp at he⟩
    · by_cases hc : cap ≤ s + dev.shadow pl p + dev.ext pl p
      · rw [pr_run_flush dev cap k pl p s hk hc] at h
        rcases List.mem_cons.mp h with h | h
        · subst h
          exact Or.inl ⟨rfl, dev.ext pl p, rfl, hc⟩
        · exact ih (pl + 1) (dev.ext pl p) 0 r h
      · rw [pr_run_noflush dev cap k pl p s hk hc] at h
        rcases List.mem_cons.mp h with h | h
        · subst h
          refine Or.inr ⟨rfl, fun e he => ?_⟩
          simp only [Option.some_inj] at he
          subst he
          have hlt : s + dev.shadow pl p + dev.ext pl p < cap := by omega
          exact hlt
        · exact ih (pl + 1) (dev.ext pl p) (s + dev.shadow pl p) r h

theorem pr_head_shadow (dev : Device) (cap : Nat) :
    ∀ k pl pathCount devShadow r,
      (run dev cap k pl pathCount devShadow).1.head? = some r →
      r.devShadowBefore = devShadow ∧ r.devShadowAfter = devShadow + r.appended := by
  intro k pl p s r h
  cases k with
  | zero => simp [run] at h
  | succ k =>
    by_cases hk : k = 0
    · subst hk
      rw [pr_run_last] at h
      simp only [List.head?_cons, Option.some_inj] at h
      subst h; exact ⟨rfl, rfl⟩
    · by_cases hc : cap ≤ s + dev.shadow pl p + dev.ext pl p
      · rw [pr_run_flush dev cap k pl p s hk hc] at h
        simp only [List.head?_cons, Option.some_inj] at h
        subst h; exact ⟨rfl, rfl⟩
      · rw [pr_run_noflush dev cap k pl p s hk hc] at h
        simp only [List.head?_cons, Option.some_inj] at h
        subst h; exact ⟨rfl, rfl⟩

theorem pr_after_flush (dev : Device) (cap : Nat) :
    ∀ k pl pathCount devShadow i r r2,
      (run dev cap k pl pathCount devShadow).1[i]? = some r →
      (run dev cap k pl pathCount devShadow).1[i + 1]? = some r2 →
      r.flushed.isSome → r2.devShadowBefore = 0 := by
  intro k
  induction k with
  | zero => intro pl p s i r r2 h h2 hf; simp [run] at h
  | succ k ih =>
    intro pl p s i r r2 h h2 hf
    by_cases hk : k = 0
    · subst hk
      rw [pr_run_last] at h h2
      cases i with
      | zero => simp at h2
      | succ i => simp at h
    · by_cases hc : cap ≤ s + dev.shadow pl p + dev.ext pl p
      · rw [pr_run_flush dev cap k pl p s hk hc] at h h2
        cases i with
        | zero =>
          simp only [List.getElem?_cons_succ, List.getElem?_cons_zero] at h2
          have hh : (run dev cap k (pl + 1) (dev.ext pl p) 0).1.head? = some r2 := by
            cases heq : (run dev cap k (pl + 1) (dev.ext pl p) 0).1 with
            | nil => rw [heq] at h2; simp at h2
            | cons a l => rw [heq] at h2; simp only [List.getElem?_cons_zero] at h2; simp [heq, h2]
          exact (pr_head_shadow dev cap k (pl + 1) (dev.ext pl p) 0 r2 hh).1
        | succ i =>
          simp only [List.getElem?_cons_succ] at h h2
          exact ih (pl + 1) (dev.ext pl p) 0 i r r2 h h2 hf
      · rw [pr_run_noflush dev cap k pl p s hk hc] at h h2
        cases i with
        | zero =>
          simp only [List.getElem?_cons_zero, Option.some_inj] at h
          subst h
          simp at hf
        | succ i =>
          simp only [List.getElem?_cons_succ] at h h2
          exact ih (pl + 1) (dev.ext pl p) (s + dev.shadow pl p) i r r2 h h2 hf

theorem pr_conservation (dev : Device) (cap : Nat) :
    ∀ k pl pathCount devShadow, 1 ≤ k →
      flushedSum (run dev cap k pl pathCount devShadow).1 +
          (run dev cap k pl pathCount devShadow).2 =
        devShadow + appendedSum (run dev cap k pl pathCount devShadow).1 := by
  intro k
  induction k with
  | zero => intro pl p s h; omega
  | succ k ih =>
    intro pl p s _
    by_cases hk : k = 0
    · subst hk
      rw [pr_run_last]
      simp [flushedSum, appendedSum]
    · by_cases hc : cap ≤ s + dev.shadow pl p + dev.ext pl p
      · rw [pr_run_flush dev cap k pl p s hk hc]
        have H := ih (pl + 1) (dev.ext pl p) 0 (Nat.one_le_iff_ne_zero.mpr hk)
        simp only [flushedSum, appendedSum, List.map_cons, List.sum_cons, Option.getD_some]
        simp only [flushedSum, appendedSum] at H
        omega
      · rw [pr_run_noflush dev cap k pl p s hk hc]
        have H := ih (pl + 1) (dev.ext pl p) (s + dev.shadow pl p)
          (Nat.one_le_iff_ne_zero.mpr hk)
        simp only [flushedSum, appendedSum, List.map_cons, List.sum_cons, Option.getD_none]
        simp only [flushedSum, appendedSum] at H
        omega

theorem pr_ext_bound (dev : Device) (cap : Nat) (hdev : ∀ pl p, dev.ext pl p ≤ p) :
    ∀ k pl pathCount devShadow n, pathCount ≤ n →
      ∀ r ∈ (run dev cap k pl pathCount devShadow).1,
        r.devExt ≤ r.submitted ∧ r.submitted ≤ n := by
  intro k
  induction k with
  | zero => intro pl p s n hp r h; simp [run] at h
  | succ k ih =>
    intro pl p s n hp r h
    by_cases hk : k = 0
    · subst hk
      rw [pr_run_last] at h
      simp only [List.mem_singleton] at h
      subst h
      exact ⟨hdev pl p, hp⟩
    · by_cases hc : cap ≤ s + dev.shadow pl p + dev.ext pl p
      · rw [pr_run_flush dev cap k pl p s hk hc] at h
        rcases List.mem_cons.mp h with h | h
        · subst h; exact ⟨hdev pl p, hp⟩
        · exact ih (pl + 1) (dev.ext pl p) 0 n (le_trans (hdev pl p) hp) r h
      · rw [pr_run_noflush dev cap k pl p s hk hc] at h
        rcases List.mem_cons.mp h with h | h
        · subst h; exact ⟨hdev pl p, hp⟩
        · exact ih (pl + 1) (dev.ext pl p) (s + dev.shadow pl p) n
            (le_trans (hdev pl p) hp) r h

theorem pr_swapCount_all (dev : Device) (cap : Nat) :
    ∀ k pl pathCount devShadow, 1 ≤ k →
      swapCount (run dev cap k pl pathCount devShadow).1 = k - 1 := by
  intro k
  induction k with
  | zero => intro pl p s h; omega
  | succ k ih =>
    intro pl p s _
    by_cases hk : k = 0
    · subst hk
      rw [pr_run_last]
      simp [swapCount]
    · by_cases hc : cap ≤ s + dev.shadow pl p + dev.ext pl p
      · rw [pr_run_flush dev cap k pl p s hk hc]
        have H := ih (pl + 1) (dev.ext pl p) 0 (Nat.one_le_iff_ne_zero.mpr hk)
        simp [swapCount, List.countP_cons] at H ⊢
        omega
      · rw [pr_run_noflush dev cap k pl p s hk hc]
        have H := ih (pl + 1) (dev.ext pl p) (s + dev.shadow pl p)
          (Nat.one_le_iff_ne_zero.mpr hk)
        simp [swapCount, List.countP_cons] at H ⊢
        omega

theorem pr_swapCount_take (dev : Device) (cap : Nat) :
    ∀ k pl pathCount devShadow n, n + 1 ≤ k →
      swapCount ((run dev cap k pl pathCount devShadow).1.take n) = n := by
  intro k
  induction k with
  | zero => intro pl p s n h; omega
  | succ k ih =>
    intro pl p s n hn
    cases n with
    | zero => simp [swapCount]
    | succ n =>
      have hk : k ≠ 0 := by omega
      by_cases hc : cap ≤ s + dev.shadow pl p + dev.ext pl p
      · rw [pr_run_flush dev cap k pl p s hk hc]
        have H := ih (pl + 1) (dev.ext pl p) 0 n (by omega)
        simp [List.take_succ_cons, swapCount, List.countP_cons] at H ⊢
        omega
      · rw [pr_run_noflush dev cap k pl p s hk hc]
        have H := ih (pl + 1) (dev.ext pl p) (s + dev.shadow pl p) n (by omega)
        simp [List.take_succ_cons, swapCount, List.countP_cons] at H ⊢
        omega

end OptixPrime

end Lighthouse2

namespace Lighthouse2

namespace OptixPrime

theorem pr_readExt_shape (dev : Device) (cap : Nat) :
    ∀ k pl pathCount devShadow r, r ∈ (run dev cap k pl pathCount devShadow).1 →
      r.readExt = none ∨ r.readExt = some r.devExt := by
  intro k
  induction k with
  | zero => intro pl p s r h; simp [run] at h
  | succ k ih =>
    intro pl p s r h
    by_cases hk : k = 0
    · subst hk
      rw [pr_run_last] at h
      simp only [List.mem_singleton] at h
      subst h
      exact Or.inl rfl
    · by_cases hc : cap ≤ s + dev.shadow pl p + dev.ext pl p
      · rw [pr_run_flush dev cap k pl p s hk hc] at h
        rcases List.mem_cons.mp h with h | h
        · subst h; exact Or.inr rfl
        · exact ih (pl + 1) (dev.ext pl p) 0 r h
      · rw [pr_run_noflush dev cap k pl p s hk hc] at h
        rcases List.mem_cons.mp h with h | h
        · subst h; exact Or.inr rfl
        · exact ih (pl + 1) (dev.ext pl p) (s + dev.shadow pl p) r h

end OptixPrime

/-- C1 (amended).  In the Optix7Filter core the overflow flush runs in a
bounce iteration iff the read-back path count is nonzero (otherwise the
loop breaks first), the pending shadow-ray count is positive, and
pathCount + pendingShadowRays reaches the queue capacity; in the
OptixPrime_PBRT core it runs iff the iteration reads the counters back at
all (every iteration except the MAXPATHLENGTH-th does) and
pendingShadowRays + pathCount reaches the capacity.  Immediately after a
flush the device-side shadow counter is zero (the next iteration's
read-back starts from zero).  In the OptixPrime core every generated
shadow ray is resolved exactly once over the frame; in the Optix7Filter
core the total resolved equals the total generated plus the amount
flushed by the final executed iteration, if that iteration flushed —
those rays are resolved a second time by the end-of-loop resolve because
the host-local counter copy is stale. -/
theorem C1_flush_policy_amended (dev7 : Optix7Filter.Device) (devP : OptixPrime.Device)
    (cap7 capP maxLen n : Nat) (hlen : 1 ≤ maxLen) :
    (∀ r ∈ (Optix7Filter.renderLoop dev7 cap7 maxLen n).1,
        (r.flushed = some r.readShadow ∧
            r.readExt ≠ 0 ∧ cap7 ≤ r.readExt + r.readShadow ∧ 0 < r.readShadow) ∨
          (r.flushed = none ∧
            ¬(r.readExt ≠ 0 ∧ cap7 ≤ r.readExt + r.readShadow ∧ 0 < r.readShadow))) ∧
      (∀ i r r2, (Optix7Filter.renderLoop dev7 cap7 maxLen n).1[i]? = some r →
        (Optix7Filter.renderLoop dev7 cap7 maxLen n).1[i + 1]? = some r2 →
        r.flushed.isSome → r2.devShadowBefore = 0) ∧
      Optix7Filter.totalResolved (Optix7Filter.renderLoop dev7 cap7 maxLen n) =
        Optix7Filter.appendedSum (Optix7Filter.renderLoop dev7 cap7 maxLen n).1 +
          Optix7Filter.lastFlushExtra (Optix7Filter.renderLoop dev7 cap7 maxLen n).1 ∧
      (∀ r ∈ (OptixPrime.renderLoop devP capP maxLen n).1,
        (r.flushed = some r.devShadowAfter ∧
            ∃ e, r.readExt = some e ∧ capP ≤ r.devShadowAfter + e) ∨
          (r.flushed = none ∧ ∀ e, r.readExt = some e → r.devShadowAfter + e < capP)) ∧
      (∀ i r r2, (OptixPrime.renderLoop devP capP maxLen n).1[i]? = some r →
        (OptixPrime.renderLoop devP capP maxLen n).1[i + 1]? = some r2 →
        r.flushed.isSome → r2.devShadowBefore = 0) ∧
      OptixPrime.totalResolved (OptixPrime.renderLoop devP capP maxLen n) =
        OptixPrime.appendedSum (OptixPrime.renderLoop devP capP maxLen n).1 := by
  refine ⟨fun r hr => Optix7Filter.f7_flush_char dev7 cap7 maxLen 1 n 0 r hr,
    fun i r r2 h h2 hf => Optix7Filter.f7_after_flush dev7 cap7 maxLen 1 n 0 i r r2 h h2 hf,
    ?_,
    fun r hr => OptixPrime.pr_flush_char devP capP maxLen 1 n 0 r hr,
    fun i r r2 h h2 hf => OptixPrime.pr_after_flush devP capP maxLen 1 n 0 i r r2 h h2 hf,
    ?_⟩
  · have H := Optix7Filter.f7_conservation dev7 cap7 maxLen 1 n 0 hlen
    simpa [Optix7Filter.totalResolved, Optix7Filter.renderLoop] using H
  · have H := OptixPrime.pr_conservation devP capP maxLen 1 n 0 hlen
    simpa [OptixPrime.totalResolved, OptixPrime.renderLoop] using H

/-- C1 (counterexample).  On a 2x2 screen at 1 spp (4 primary paths,
shadow-queue capacity 8) with MAXPATHLENGTH = 2: in the OptixPrime core,
in the second (final) bounce iteration the continuing path count written
by the dispatch is 4 and the pending shadow-ray count is 7, so
4 + 7 >= 8 reaches the capacity, yet no flush is executed (the final
iteration breaks before the overflow check) — refuting the claimed "if"
direction; and in the Optix7Filter core, with every path casting one
shadow ray per bounce, 12 shadow rays are resolved while only 8 were
generated — the 4 rays flushed in the final iteration are resolved again
by the end-of-loop resolve, refuting "no pending shadow ray is resolved
twice". -/
theorem C1_counterexample :
    (OptixPrime.renderLoop devPrimeA 8 2 4).1[1]? =
        some { submitted := 4, devShadowBefore := 3, appended := 4, devExt := 4,
               devShadowAfter := 7, readExt := none, flushed := none, swapped := false } ∧
      8 ≤ 4 + 7 ∧
      Optix7Filter.totalResolved (Optix7Filter.renderLoop devF7B 8 2 4) = 12 ∧
      Optix7Filter.appendedSum (Optix7Filter.renderLoop devF7B 8 2 4).1 = 8 := by
  decide

/-- C1 (witness for the amended theorem): on the concrete oracles the
Optix7Filter frame resolves 8 generated rays plus the 4 re-resolved by
the stale final flush, and the OptixPrime frame resolves exactly what it
generated. -/
theorem C1_flush_policy_amended_witness :
    Optix7Filter.totalResolved (Optix7Filter.renderLoop devF7B 8 2 4) =
        Optix7Filter.appendedSum (Optix7Filter.renderLoop devF7B 8 2 4).1 +
          Optix7Filter.lastFlushExtra (Optix7Filter.renderLoop devF7B 8 2 4).1 ∧
      OptixPrime.totalResolved (OptixPrime.renderLoop devPrimeA 8 2 4) =
        OptixPrime.appendedSum (OptixPrime.renderLoop devPrimeA 8 2 4).1 := by
  have H := C1_flush_policy_amended devF7B devPrimeA 8 8 2 4 (by decide)
  exact ⟨H.2.2.1, H.2.2.2.2.2⟩

/-- C2 (amended).  Both wavefront loops execute at most MAXPATHLENGTH
bounce iterations.  The Optix7Filter loop stops before the next iteration
whenever the path count read back after a shading pass is zero (any
iteration that has a successor read back a nonzero count).  The
OptixPrime_PBRT loop, however, has no early exit: it always executes
exactly MAXPATHLENGTH iterations, continuing with zero-width dispatches
after the path count reaches zero. -/
theorem C2_loop_bound_amended (dev7 : Optix7Filter.Device) (devP : OptixPrime.Device)
    (cap7 capP maxLen n : Nat) :
    (Optix7Filter.renderLoop dev7 cap7 maxLen n).1.length ≤ maxLen ∧
      (∀ i r, (Optix7Filter.renderLoop dev7 cap7 maxLen n).1[i]? = some r →
        ((Optix7Filter.renderLoop dev7 cap7 maxLen n).1[i + 1]?).isSome → r.readExt ≠ 0) ∧
      (OptixPrime.renderLoop devP capP maxLen n).1.length = maxLen :=
  ⟨Optix7Filter.f7_length_le dev7 cap7 maxLen 1 n 0,
   fun i r h h2 => Optix7Filter.f7_stop_on_zero dev7 cap7 maxLen 1 n 0 i r h h2,
   OptixPrime.pr_run_length devP capP maxLen 1 n 0⟩

/-- C2 (counterexample).  In the OptixPrime core with MAXPATHLENGTH = 3,
when every primary ray misses (read-back path count 0 after the first
shading pass), the loop still executes all three bounce iterations — the
second iteration runs with 0 submitted paths — refuting "it stops before
the next iteration whenever the path count read back equals zero". -/
theorem C2_counterexample :
    (OptixPrime.renderLoop devPrimeZ 100 3 4).1.length = 3 ∧
      ((OptixPrime.renderLoop devPrimeZ 100 3 4).1[0]?.map fun r => r.readExt) =
        some (some 0) ∧
      ((OptixPrime.renderLoop devPrimeZ 100 3 4).1[1]?.map fun r => r.submitted) = some 0 := by
  decide

/-- C2 (witness for the amended theorem) at MAXPATHLENGTH = 2 on the
concrete oracles, including a nonzero read-back for the non-final
Optix7Filter iteration. -/
theorem C2_loop_bound_amended_witness :
    (Optix7Filter.renderLoop devF7B 8 2 4).1.length ≤ 2 ∧
      (OptixPrime.renderLoop devPrimeA 8 2 4).1.length = 2 ∧
      ({ submitted := 4, devShadowBefore := 0, appended := 4, readExt := 4, readShadow := 4,
         flushed := some 4 } : Optix7Filter.IterRec).readExt ≠ 0 := by
  have H := C2_loop_bound_amended devF7B devPrimeA 8 8 2 4
  exact ⟨H.1, H.2.2, H.2.1 0 _ (by decide) (by decide)⟩

/-- C3 (confirmed, against the spec-modelled shading kernel).  In both
cores, for every bounce iteration of every frame, the extension-ray count
read back from the Counters record after a shading pass is at most the
path count submitted to that pass, and every submitted path count is at
most the frame's primary path count — paths never multiply.  The shading
kernel (CUDA code outside src/) enters through the hypotheses hdev7 and
hdevP: each surviving path writes at most one continuation ray. -/
theorem C3_extension_ray_bound (dev7 : Optix7Filter.Device) (devP : OptixPrime.Device)
    (cap7 capP maxLen n : Nat)
    (hdev7 : ∀ pl p, dev7.ext pl p ≤ p) (hdevP : ∀ pl p, devP.ext pl p ≤ p) :
    (∀ r ∈ (Optix7Filter.renderLoop dev7 cap7 maxLen n).1,
        r.readExt ≤ r.submitted ∧ r.submitted ≤ n) ∧
      ∀ r ∈ (OptixPrime.renderLoop devP capP maxLen n).1,
        (∀ e, r.readExt = some e → e ≤ r.submitted) ∧
          r.devExt ≤ r.submitted ∧ r.submitted ≤ n := by
  refine ⟨fun r hr => Optix7Filter.f7_ext_bound dev7 cap7 hdev7 maxLen 1 n 0 n le_rfl r hr,
    fun r hr => ⟨fun e he => ?_,
      OptixPrime.pr_ext_bound devP capP hdevP maxLen 1 n 0 n le_rfl r hr⟩⟩
  rcases OptixPrime.pr_readExt_shape devP capP maxLen 1 n 0 r hr with h | h
  · rw [h] at he; cases he
  · rw [h] at he
    cases he
    exact (OptixPrime.pr_ext_bound devP capP hdevP maxLen 1 n 0 n le_rfl r hr).1

/-- C3 (witness): the first bounce iteration of the concrete Optix7Filter
frame read back 4 extension rays from 4 submitted paths. -/
theorem C3_extension_ray_bound_witness :
    ({ submitted := 4, devShadowBefore := 0, appended := 4, readExt := 4, readShadow := 4,
       flushed := some 4 } : Optix7Filter.IterRec).readExt ≤
        ({ submitted := 4, devShadowBefore := 0, appended := 4, readExt := 4, readShadow := 4,
           flushed := some 4 } : Optix7Filter.IterRec).submitted ∧
      ({ submitted := 4, devShadowBefore := 0, appended := 4, readExt := 4, readShadow := 4,
         flushed := some 4 } : Optix7Filter.IterRec).submitted ≤ 4 :=
  (C3_extension_ray_bound devF7B devPrimeA 8 8 2 4
    (fun _ _ => le_rfl) (fun _ _ => le_rfl)).1 _ (by decide)

end Lighthouse2

namespace Lighthouse2

/-- C4 (amended).  In the Optix7Filter core, calling Render before any
scene data has been made available to the device (gpuHasSceneData is
false until FinalizeInstances runs) is a silent no-op for every view,
convergence mode and async flag: the state — accumulator, sample count,
statistics — is returned unchanged, no frame pass runs (the pass output
is none) and no error is signalled.  The OptixPrime_PBRT core, however,
has no such guard: Render always runs the frame, advancing the sample
count by scrspp (from zero on a restart) and overwriting the statistics,
whether or not any scene data exists. -/
theorem C4_not_ready_amended (c st : Nat) (sd : Nat → Nat) (s7 : Optix7Filter.RenderState)
    (sP : OptixPrime.RenderState) (conv : Convergence)
    (h : s7.gpuHasSceneData = false) :
    Optix7Filter.render c st sd s7 conv = (s7, none) ∧
      (OptixPrime.render c st sd sP conv).1.samplesTaken =
        (if conv = Convergence.Restart ∨ sP.firstConvergingFrame = true then 0
          else sP.samplesTaken) + sP.scrspp ∧
      (OptixPrime.render c st sd sP conv).1.coreStats = st := by
  refine ⟨by simp [Optix7Filter.render, h], ?_, ?_⟩
  · cases conv with
    | Restart => simp [OptixPrime.render]
    | Converge =>
      by_cases hf : sP.firstConvergingFrame = true
      · simp [OptixPrime.render, hf]
      · simp [OptixPrime.render, hf]
  · cases conv with
    | Restart => simp [OptixPrime.render]
    | Converge =>
      by_cases hf : sP.firstConvergingFrame = true
      · simp [OptixPrime.render, hf]
      · simp [OptixPrime.render, hf]

/-- C4 (counterexample).  Calling Render on the OptixPrime core with no
scene data at all (no instances), in plain Converge mode with no pending
restart, still changes the core state: the sample count advances — the
call is not a no-op, refuting the claim for this core. -/
theorem C4_counterexample :
    (OptixPrime.render 9 11 (fun x => x + 1) sPrimeEmpty Convergence.Converge).1 ≠
        sPrimeEmpty ∧
      (OptixPrime.render 9 11 (fun x => x + 1) sPrimeEmpty Convergence.Converge).1.samplesTaken
        = 4 ∧
      sPrimeEmpty.samplesTaken = 3 := by
  decide

/-- C4 (witness for the amended theorem): the not-ready Optix7Filter call
really is a no-op, and the scene-less OptixPrime call really advances. -/
theorem C4_not_ready_amended_witness :
    Optix7Filter.render 9 11 (fun x => x + 1) s7notReady Convergence.Restart =
        (s7notReady, none) ∧
      (OptixPrime.render 9 11 (fun x => x + 1) sPrimeEmpty Convergence.Converge).1.coreStats
        = 11 := by
  have H := C4_not_ready_amended 9 11 (fun x => x + 1) s7notReady sPrimeEmpty
    Convergence.Restart rfl
  have H2 := C4_not_ready_amended 9 11 (fun x => x + 1) s7notReady sPrimeEmpty
    Convergence.Converge rfl
  exact ⟨H.1, H2.2.2⟩

/-- C5 (confirmed).  For every Render call that actually runs a frame
(for the Optix7Filter core this means scene data is present; the
OptixPrime core always runs): if convergence is Restart, or the
first-converging-frame flag is still set from a prior restart, then the
frame is rendered with sample count zero (the pass output is some 0), the
accumulator is cleared before the frame's accumulation (afterwards it
holds exactly the new frame's contribution), and the flag is set true —
remaining true unless this very call is a Converge call; and on every
Converge call the flag is cleared after this special handling. -/
theorem C5_restart_handling (c st : Nat) (sd : Nat → Nat) (s7 : Optix7Filter.RenderState)
    (sP : OptixPrime.RenderState) (conv : Convergence)
    (h7 : s7.gpuHasSceneData = true) :
    ((conv = Convergence.Restart ∨ s7.firstConvergingFrame = true →
        (Optix7Filter.render c st sd s7 conv).2 = some 0 ∧
          (Optix7Filter.render c st sd s7 conv).1.accumulator = c ∧
          (conv ≠ Convergence.Converge →
            (Optix7Filter.render c st sd s7 conv).1.firstConvergingFrame = true)) ∧
      (conv = Convergence.Converge →
        (Optix7Filter.render c st sd s7 conv).1.firstConvergingFrame = false)) ∧
    ((conv = Convergence.Restart ∨ sP.firstConvergingFrame = true →
        (OptixPrime.render c st sd sP conv).2 = some 0 ∧
          (OptixPrime.render c st sd sP conv).1.accumulator = c ∧
          (conv ≠ Convergence.Converge →
            (OptixPrime.render c st sd sP conv).1.firstConvergingFrame = true)) ∧
      (conv = Convergence.Converge →
        (OptixPrime.render c st sd sP conv).1.firstConvergingFrame = false)) := by
  constructor
  · cases conv with
    | Restart =>
      refine ⟨fun _ => ?_, fun hx => by cases hx⟩
      simp [Optix7Filter.render, h7]
    | Converge =>
      constructor
      · intro hor
        have hf : s7.firstConvergingFrame = true := by
          rcases hor with hx | hx
          · cases hx
          · exact hx
        refine ⟨?_, ?_, fun hx => absurd rfl hx⟩
        · simp [Optix7Filter.render, h7, hf]
        · simp [Optix7Filter.render, h7, hf]
      · intro _
        by_cases hf : s7.firstConvergingFrame = true
        · simp [Optix7Filter.render, h7, hf]
        · by_cases hs : s7.samplesTaken = 0
          · simp [Optix7Filter.render, h7, hf, hs]
          · simp [Optix7Filter.render, h7, hf, hs]
  · cases conv with
    | Restart =>
      refine ⟨fun _ => ?_, fun hx => by cases hx⟩
      simp [OptixPrime.render]
    | Converge =>
      constructor
      · intro hor
        have hf : sP.firstConvergingFrame = true := by
          rcases hor with hx | hx
          · cases hx
          · exact hx
        refine ⟨?_, ?_, fun hx => absurd rfl hx⟩
        · simp [OptixPrime.render, hf]
        · simp [OptixPrime.render, hf]
      · intro _
        by_cases hf : sP.firstConvergingFrame = true
        · simp [OptixPrime.render, hf]
        · simp [OptixPrime.render, hf]

/-- C5 (witness): a Restart call on ready state renders with pass 0,
leaves exactly the new contribution in the accumulator and sets the
first-converging-frame flag; a following Converge call clears it. -/
theorem C5_restart_handling_witness :
    (Optix7Filter.render 9 3 (fun x => x) s7ready Convergence.Restart).2 = some 0 ∧
      (Optix7Filter.render 9 3 (fun x => x) s7ready Convergence.Restart).1.accumulator = 9 ∧
      (Optix7Filter.render 9 3 (fun x => x) s7ready
          Convergence.Restart).1.firstConvergingFrame = true ∧
      (OptixPrime.render 9 3 (fun x => x) sPrimeEmpty
          Convergence.Converge).1.firstConvergingFrame = false := by
  have H := C5_restart_handling 9 3 (fun x => x) s7ready sPrimeEmpty
    Convergence.Restart rfl
  have H2 := C5_restart_handling 9 3 (fun x => x) s7ready sPrimeEmpty
    Convergence.Converge rfl
  have ha := H.1.1 (Or.inl rfl)
  exact ⟨ha.1, ha.2.1, ha.2.2 (by simp), H2.2.2 rfl⟩

/-- C6 (amended).  In the OptixPrime_PBRT wavefront loop the in/out roles
of the two ping-pong extension-ray queues swap once per completed bounce
iteration except the final (MAXPATHLENGTH-th) one, which breaks before
the swap: a frame performs exactly MAXPATHLENGTH iterations, after N
completed iterations with N < MAXPATHLENGTH the roles have swapped
exactly N times, and over the whole frame they swap MAXPATHLENGTH - 1
times. -/
theorem C6_pingpong_amended (devP : OptixPrime.Device) (capP maxLen n N : Nat)
    (hlen : 1 ≤ maxLen) :
    (OptixPrime.renderLoop devP capP maxLen n).1.length = maxLen ∧
      OptixPrime.swapCount (OptixPrime.renderLoop devP capP maxLen n).1 = maxLen - 1 ∧
      (N + 1 ≤ maxLen →
        OptixPrime.swapCount ((OptixPrime.renderLoop devP capP maxLen n).1.take N) = N) :=
  ⟨OptixPrime.pr_run_length devP capP maxLen 1 n 0,
   OptixPrime.pr_swapCount_all devP capP maxLen 1 n 0 hlen,
   fun hN => OptixPrime.pr_swapCount_take devP capP maxLen 1 n 0 N hN⟩

/-- C6 (counterexample).  With MAXPATHLENGTH = 2 a frame completes two
bounce iterations but the queue roles swap only once (the final iteration
breaks before the swap), refuting "after N completed bounce iterations
the roles have been swapped exactly N times" at N = 2. -/
theorem C6_counterexample :
    (OptixPrime.renderLoop devPrimeZ 100 2 4).1.length = 2 ∧
      OptixPrime.swapCount (OptixPrime.renderLoop devPrimeZ 100 2 4).1 = 1 := by
  decide

/-- C6 (witness for the amended theorem) at MAXPATHLENGTH = 3: two swaps
over the whole frame and one swap after the first completed iteration. -/
theorem C6_pingpong_amended_witness :
    OptixPrime.swapCount (OptixPrime.renderLoop devPrimeA 8 3 4).1 = 2 ∧
      OptixPrime.swapCount ((OptixPrime.renderLoop devPrimeA 8 3 4).1.take 1) = 1 := by
  have H := C6_pingpong_amended devPrimeA 8 3 4 1 (by decide)
  exact ⟨H.2.1, H.2.2 (by decide)⟩

/-- C7 (confirmed).  SetTarget reallocates the device buffers exactly
when the new pixel count exceeds the allocated pixel capacity or the
requested samples-per-pixel differs from the current one; when it
reallocates, the new capacity (new pixel count plus 1/16 slack) is at
least the new pixel count; and after the call the accumulator is cleared
and the sample counter is zero. -/
theorem C7_set_target (s : TargetState) (w h spp : Nat) :
    ((setTarget s w h spp).2 = true ↔ (s.maxPixels < w * h ∨ spp ≠ s.currentSPP)) ∧
      ((setTarget s w h spp).2 = true → w * h ≤ (setTarget s w h spp).1.maxPixels) ∧
      (setTarget s w h spp).1.samplesTaken = 0 ∧
      (setTarget s w h spp).1.accumulator = 0 := by
  by_cases hc : s.maxPixels < w * h ∨ spp ≠ s.currentSPP
  · refine ⟨by simp [setTarget, hc], fun _ => ?_, by simp [setTarget, hc],
      by simp [setTarget, hc]⟩
    simp only [setTarget, if_pos hc]
    omega
  · refine ⟨by simp [setTarget, hc], fun hx => ?_, by simp [setTarget, hc],
      by simp [setTarget, hc]⟩
    simp [setTarget, hc] at hx

/-- C7 (witness): resizing from a 100x100 target (capacity 10625 pixels)
to 400x400 at unchanged spp reallocates, yields capacity at least 160000
pixels, and leaves the sample counter at zero. -/
theorem C7_set_target_witness :
    (setTarget target100 400 400 1).2 = true ∧
      160000 ≤ (setTarget target100 400 400 1).1.maxPixels ∧
      (setTarget target100 400 400 1).1.samplesTaken = 0 := by
  have H := C7_set_target target100 400 400 1
  have hre := H.1.mpr (Or.inl (by decide))
  refine ⟨hre, ?_, H.2.2.1⟩
  have := H.2.1 hre
  simpa using this

/-- C8 (confirmed).  SetInstance with meshIdx = -1 truncates the instance
list: the result is exactly the first instanceIdx entries (length
min(previous length, instanceIdx), entries below instanceIdx untouched,
no mesh or transform written).  With meshIdx different from -1 it appends
one new instance when instanceIdx is not below the current length —
writing the given mesh and transform into the appended slot when
instanceIdx equals the length (for larger instanceIdx the C++ slot write
is out of bounds) — and otherwise overwrites the existing slot's mesh and
transform in place. -/
theorem C8_set_instance {T : Type} [Inhabited T] (inst : List (CoreInstance T))
    (idx : Nat) (m : Int) (t : T) :
    (setInstance inst idx (-1) t = inst.take idx ∧
      (setInstance inst idx (-1) t).length = min inst.length idx) ∧
    (m ≠ -1 → inst.length ≤ idx → (setInstance inst idx m t).length = inst.length + 1) ∧
    (m ≠ -1 → idx = inst.length →
      setInstance inst idx m t = inst ++ [{ mesh := m, transform := t }]) ∧
    (m ≠ -1 → idx < inst.length →
      setInstance inst idx m t = inst.set idx { mesh := m, transform := t }) := by
  have htrunc : setInstance inst idx (-1) t = inst.take idx := by
    by_cases hlt : idx < inst.length
    · simp [setInstance, hlt]
    · have hid : setInstance inst idx (-1) t = inst := by
        simp [setInstance, hlt]
      rw [hid]
      exact (List.take_of_length_le (by omega)).symm
  refine ⟨⟨htrunc, ?_⟩, ?_, ?_, ?_⟩
  · rw [htrunc, List.length_take]
    omega
  · intro hm hle
    simp only [setInstance, if_neg hm, if_pos hle, List.length_set, List.length_append,
      List.length_singleton]
  · intro hm heq
    subst heq
    simp only [setInstance, if_neg hm, if_pos le_rfl]
    rw [List.set_append]
    simp
  · intro hm hlt
    simp only [setInstance, if_neg hm, if_neg (by omega : ¬inst.length ≤ idx)]

/-- C8 (witness): on a concrete two-entry instance list, truncation at
index 1, an append at index 2 and an in-place overwrite at index 0 behave
as stated. -/
theorem C8_set_instance_witness :
    setInstance instc 1 (-1) 99 = instc.take 1 ∧
      (setInstance instc 2 5 30).length = 3 ∧
      setInstance instc 2 5 30 = instc ++ [{ mesh := 5, transform := 30 }] ∧
      setInstance instc 0 6 40 = instc.set 0 { mesh := 6, transform := 40 } := by
  refine ⟨(C8_set_instance instc 1 (-1) 99).1.1, ?_,
    (C8_set_instance instc 2 5 30).2.2.1 (by decide) (by decide),
    (C8_set_instance instc 0 6 40).2.2.2 (by decide) (by decide)⟩
  have := (C8_set_instance instc 2 5 30).2.1 (by decide) (by decide)
  simpa using this

/-- C9 (confirmed).  Calling WaitForRender when no asynchronous render is
in progress returns immediately: the state — coreStats, the RNG seed, the
render target, the sample counter — is unchanged and FinalizeRender does
not run. -/
theorem C9_wait_for_render_noop (img : Nat) (s : Optix7Filter.WaitState)
    (h : s.asyncRenderInProgress = false) :
    Optix7Filter.waitForRender img s = (s, false) := by
  simp [Optix7Filter.waitForRender, h]

/-- C9 (witness): a concrete idle wait state is returned untouched. -/
theorem C9_wait_for_render_noop_witness :
    Optix7Filter.waitForRender 7 waitIdle = (waitIdle, false) :=
  C9_wait_for_render_noop 7 waitIdle rfl

/-- C10 (confirmed).  Setting with a name that is not one of the
recognized setting names of the respective core ("epsilon", "clampValue",
"clampDirect", "clampIndirect", "filter", "TAA" for Optix7Filter;
"epsilon", "clampValue" for OptixPrime_PBRT) leaves all render variables
unchanged and stages nothing to the device; and Setting "epsilon" or
"clampValue" with a value equal to the stored one stages no device
update and changes nothing. -/
theorem C10_setting_unknown_noop (v7 : Optix7Filter.RenderVars) (vP : OptixPrime.RenderVars)
    (name : String) (value : Int) :
    (name ≠ "epsilon" → name ≠ "clampValue" → name ≠ "clampDirect" →
      name ≠ "clampIndirect" → name ≠ "filter" → name ≠ "TAA" →
      Optix7Filter.setting v7 name value = (v7, [])) ∧
    Optix7Filter.setting v7 "epsilon" v7.geometryEpsilon = (v7, []) ∧
    Optix7Filter.setting v7 "clampValue" v7.clampValue = (v7, []) ∧
    (name ≠ "epsilon" → name ≠ "clampValue" →
      OptixPrime.setting vP name value = (vP, [])) ∧
    OptixPrime.setting vP "epsilon" vP.geometryEpsilon = (vP, []) ∧
    OptixPrime.setting vP "clampValue" vP.clampValue = (vP, []) := by
  refine ⟨fun h1 h2 h3 h4 h5 h6 => ?_, ?_, ?_, fun h1 h2 => ?_, ?_, ?_⟩
  · simp [Optix7Filter.setting, h1, h2, h3, h4, h5, h6]
  · simp [Optix7Filter.setting]
  · simp [Optix7Filter.setting]
  · simp [OptixPrime.setting, h1, h2]
  · simp [OptixPrime.setting]
  · simp [OptixPrime.setting]

/-- C10 (witness): an unrecognized name ("brightness") is a no-op in both
cores, and re-setting "epsilon" to its stored value stages nothing. -/
theorem C10_setting_unknown_noop_witness :
    Optix7Filter.setting vars7c "brightness" 7 = (vars7c, []) ∧
      Optix7Filter.setting vars7c "epsilon" vars7c.geometryEpsilon = (vars7c, []) ∧
      OptixPrime.setting varsPc "brightness" 7 = (varsPc, []) := by
  have H := C10_setting_unknown_noop vars7c varsPc "brightness" 7
  exact ⟨H.1 (by decide) (by decide) (by decide) (by decide) (by decide) (by decide),
    H.2.1, H.2.2.2.1 (by decide) (by decide)⟩

end Lighthouse2
